import Mathlib

/-!
Verification of the `synergos_logger` structured-logging library.

The Python sources are shallowly embedded:

* an event record (a Python `dict`) becomes an association list
  `List (String × Value)` with Python `dict` update semantics
  (`dictSet` replaces in place, inserts at the end);
* Python values carry their truthiness (`Value.truthy`), mirroring
  `if k:` tests in the source;
* the processor-chain builder `RootLogger._configure_processors`
  becomes a function producing a `List Stage` of tagged stages;
* the stateful pieces (`RootLogger.initialise`, the sysmetric tracker
  lifecycle) become explicit state-passing functions; fallible code
  returns `Except`.
-/

namespace Synlogger

/-- A Python value as it appears in an event record.  Only the shapes
the library actually stores are embedded. -/
inductive Value where
  | str (s : String)
  | int (n : Int)
  | bool (b : Bool)
  | pyNone
  deriving DecidableEq, Repr

/-- Python truthiness of a `Value`: `bool(x)` in the source's
`if k:` test. -/
def Value.truthy : Value → Bool
  | .str s => !s.isEmpty
  | .int n => n != 0
  | .bool b => b
  | .pyNone => false

/-- An event record: the mutable mapping threaded through the
processor chain (`event_dict` in the source). -/
abbrev Record := List (String × Value)

/-- Python `dict` assignment `d[k] = v`: replace the value at the first
occurrence of `k` in place, else append `(k, v)` at the end. -/
def dictSet : Record → String → Value → Record
  | [], k, v => [(k, v)]
  | (k', v') :: rest, k, v =>
      if k' = k then (k, v) :: rest else (k', v') :: dictSet rest k v

theorem lookup_cons_self (k : String) (v : Value) (rest : Record) :
    List.lookup k ((k, v) :: rest) = some v := by
  simp [List.lookup]

theorem lookup_cons_ne (k k' : String) (v : Value) (rest : Record)
    (h : k' ≠ k) :
    List.lookup k' ((k, v) :: rest) = List.lookup k' rest := by
  simp [List.lookup, beq_false_of_ne h]

theorem lookup_dictSet_self (r : Record) (k : String) (v : Value) :
    (dictSet r k v).lookup k = some v := by
  induction r with
  | nil => simp [dictSet, lookup_cons_self]
  | cons hd tl ih =>
      obtain ⟨k', v'⟩ := hd
      by_cases h : k' = k
      · simp [dictSet, h, lookup_cons_self]
      · rw [dictSet, if_neg h, lookup_cons_ne k' k v' _ (fun hh => h hh.symm)]
        exact ih

theorem lookup_dictSet_ne (r : Record) (k k' : String) (v : Value)
    (h : k' ≠ k) : (dictSet r k v).lookup k' = r.lookup k' := by
  induction r with
  | nil => simp [dictSet, List.lookup, beq_false_of_ne h]
  | cons hd tl ih =>
      obtain ⟨k₀, v₀⟩ := hd
      by_cases h₀ : k₀ = k
      · subst h₀
        rw [dictSet, if_pos rfl, lookup_cons_ne _ _ _ _ h,
          lookup_cons_ne _ _ _ _ h]
      · rw [dictSet, if_neg h₀]
        by_cases h₁ : k' = k₀
        · subst h₁
          rw [lookup_cons_self, lookup_cons_self]
        · rw [lookup_cons_ne _ _ _ _ h₁, lookup_cons_ne _ _ _ _ h₁]
          exact ih

/-- The sentinel used to censor sensitive values
(`CENSOR` in `config.py`). -/
def CENSOR : String := "*CENSORED*"

namespace StructlogUtils

/-- `StructlogUtils.censor_logging` (`utils.py`): for each key in
`censor_keys`, `k = event_dict.get(key); if k: event_dict[key] =
"*CENSORED*"` — replace the value only when the key is present with a
truthy value. -/
def censor_logging (censor_keys : List String) (event_dict : Record) :
    Record :=
  censor_keys.foldl
    (fun acc key =>
      match acc.lookup key with
      | some k => if k.truthy then dictSet acc key (.str CENSOR) else acc
      | none => acc)
    event_dict

/-- `StructlogUtils.get_file_path` (`utils.py`): unconditionally sets
`event_dict['file_path'] = self.file_path`. -/
def get_file_path (file_path : String) (event_dict : Record) : Record :=
  dictSet event_dict "file_path" (.str file_path)

/-- `StructlogUtils.graypy_structlog_processor` (`utils.py`): returns
`args = (event_dict.get('event', ''),)` and `kwargs = {'extra':
event_dict}` after overwriting `pid`, `process_name`, `thread_name`
and `file` with empty strings.  The line setting `function` is
commented out in the source. -/
def graypy_structlog_processor (event_dict : Record) : Value × Record :=
  let args := (event_dict.lookup "event").getD (.str "")
  let extra := event_dict
  let extra := dictSet extra "pid" (.str "")
  let extra := dictSet extra "process_name" (.str "")
  let extra := dictSet extra "thread_name" (.str "")
  let extra := dictSet extra "file" (.str "")
  (args, extra)

/-- One step of the censoring fold: processing the head censor key. -/
theorem censor_logging_cons (k : String) (ks : List String) (r : Record) :
    censor_logging (k :: ks) r =
      censor_logging ks
        (match r.lookup k with
         | some v => if v.truthy then dictSet r k (.str CENSOR) else r
         | none => r) := rfl

/-- A key that starts absent stays absent through censoring:
`censor_logging` only ever rewrites keys it found present. -/
theorem censor_preserves_absent (K : List String) (r : Record)
    (key : String) (h : r.lookup key = none) :
    (censor_logging K r).lookup key = none := by
  induction K generalizing r with
  | nil => simpa [censor_logging] using h
  | cons k ks ih =>
      rw [censor_logging_cons]
      by_cases hk : k = key
      · subst hk
        rw [h]
        exact ih r h
      · cases hl : r.lookup k with
        | none => exact ih r h
        | some v =>
            by_cases ht : v.truthy
            · simp only [ht, if_true]
              exact ih _ (by
                rw [lookup_dictSet_ne r k key (.str CENSOR) (fun hh => hk hh.symm)]
                exact h)
            · simp only [ht, Bool.false_eq_true, if_false]
              exact ih r h

/-- A key outside the censor list is never touched. -/
theorem censor_preserves_not_mem (K : List String) (r : Record)
    (key : String) (h : key ∉ K) :
    (censor_logging K r).lookup key = r.lookup key := by
  induction K generalizing r with
  | nil => simp [censor_logging]
  | cons k ks ih =>
      simp only [List.mem_cons, not_or] at h
      obtain ⟨hne, hks⟩ := h
      rw [censor_logging_cons]
      cases hl : r.lookup k with
      | none => exact ih r hks
      | some v =>
          by_cases ht : v.truthy
          · simp only [ht, if_true]
            rw [ih _ hks, lookup_dictSet_ne r k key (.str CENSOR) hne]
          · simp only [ht, Bool.false_eq_true, if_false]
            exact ih r hks

/-- Once a key holds the sentinel it keeps holding it: re-censoring
replaces the (truthy) sentinel by the sentinel again. -/
theorem censor_preserves_censored (K : List String) (r : Record)
    (key : String) (h : r.lookup key = some (.str CENSOR)) :
    (censor_logging K r).lookup key = some (.str CENSOR) := by
  induction K generalizing r with
  | nil => simpa [censor_logging] using h
  | cons k ks ih =>
      rw [censor_logging_cons]
      by_cases hk : k = key
      · subst hk
        rw [h]
        have ht : (Value.str CENSOR).truthy = true := by decide
        simp only [ht, if_true]
        exact ih _ (lookup_dictSet_self r k (.str CENSOR))
      · cases hl : r.lookup k with
        | none => exact ih r h
        | some v =>
            by_cases ht : v.truthy
            · simp only [ht, if_true]
              exact ih _ (by
                rw [lookup_dictSet_ne r k key (.str CENSOR) (fun hh => hk hh.symm)]
                exact h)
            · simp only [ht, Bool.false_eq_true, if_false]
              exact ih r h

/-- A key present with a truthy value and listed in `K` ends up holding
the sentinel. -/
theorem censor_censors_truthy (K : List String) (r : Record)
    (key : String) (v : Value) (hmem : key ∈ K)
    (hl : r.lookup key = some v) (ht : v.truthy = true) :
    (censor_logging K r).lookup key = some (.str CENSOR) := by
  induction K generalizing r v with
  | nil => exact absurd hmem (List.not_mem_nil key)
  | cons k ks ih =>
      rw [censor_logging_cons]
      by_cases hk : k = key
      · subst hk
        rw [hl]
        simp only [ht, if_true]
        exact censor_preserves_censored ks _ k
          (lookup_dictSet_self r k (.str CENSOR))
      · have hmem' : key ∈ ks := by
          rcases List.mem_cons.mp hmem with h | h
          · exact absurd h.symm hk
          · exact h
        cases hl' : r.lookup k with
        | none => exact ih r v hmem' hl ht
        | some w =>
            by_cases htw : w.truthy
            · simp only [htw, if_true]
              exact ih _ v hmem'
                (by
                  rw [lookup_dictSet_ne r k key (.str CENSOR) (fun hh => hk hh.symm)]
                  exact hl) ht
            · simp only [htw, Bool.false_eq_true, if_false]
              exact ih r v hmem' hl ht

/-- A key present with a falsy value is left unchanged even when it is
listed in `K`. -/
theorem censor_skips_falsy (K : List String) (r : Record)
    (key : String) (v : Value)
    (hl : r.lookup key = some v) (ht : v.truthy = false) :
    (censor_logging K r).lookup key = some v := by
  induction K generalizing r with
  | nil => simpa [censor_logging] using hl
  | cons k ks ih =>
      rw [censor_logging_cons]
      by_cases hk : k = key
      · subst hk
        rw [hl]
        simp only [ht, Bool.false_eq_true, if_false]
        exact ih r hl
      · cases hl' : r.lookup k with
        | none => exact ih r hl
        | some w =>
            by_cases htw : w.truthy
            · simp only [htw, if_true]
              exact ih _ (by
                rw [lookup_dictSet_ne r k key (.str CENSOR) (fun hh => hk hh.symm)]
                exact hl)
            · simp only [htw, Bool.false_eq_true, if_false]
              exact ih r hl

end StructlogUtils

/-- The supported logging variants: the keys of `RENDER_MAP` in
`RootLogger._configure_processors` (`base.py`). -/
inductive Variant where
  | basic
  | graylog
  | test
  deriving DecidableEq, Repr

/-- A tagged stage of the structlog processor chain, one constructor per
entry of the `processors` list in `RootLogger._configure_processors`
(`base.py`).  Caller-supplied filter functions are opaque and carried by
name; the stages closing over configuration carry that configuration. -/
inductive Stage where
  | add_logger_name
  | add_log_level
  | add_log_level_number
  | filter_by_level
  | positional_arguments_formatter
  | format_exc_info
  | time_stamper
  | stack_info_renderer
  | unicode_decoder
  | custom_filter (name : String)
  | get_file_path_stage (file_path : String)
  | censor_logging_stage (censor_keys : List String)
  | renderer (v : Variant)
  deriving DecidableEq, Repr

/-- Whether a stage is a terminal renderer (a value of `RENDER_MAP`). -/
def Stage.isRenderer : Stage → Bool
  | .renderer _ => true
  | _ => false

/-- Constructor arguments of `RootLogger.__init__` (`base.py`). -/
structure Config where
  logger_name : String
  logging_variant : Variant
  server : Option String
  port : Option Int
  logging_level : Int
  debugging_fields : Bool
  filter_functions : List String
  censor_keys : List String
  file_path : String
  deriving DecidableEq, Repr

namespace RootLogger

/-- `RootLogger._configure_processors` (`base.py`): the ordered stage
list `[add_logger_name, ..., unicode_decoder, *filter_functions,
get_file_path, censor_logging, logging_renderer]`. -/
def _configure_processors (cfg : Config) : List Stage :=
  [ .add_logger_name,
    .add_log_level,
    .add_log_level_number,
    .filter_by_level,
    .positional_arguments_formatter,
    .format_exc_info,
    .time_stamper,
    .stack_info_renderer,
    .unicode_decoder ]
  ++ cfg.filter_functions.map Stage.custom_filter
  ++ [ .get_file_path_stage cfg.file_path,
       .censor_logging_stage cfg.censor_keys,
       .renderer cfg.logging_variant ]

/-- A sink attached to the underlying named `logging.Logger`: either the
`graypy.GELFTCPHandler` built for the graylog variant (which merely
stores its address at construction time — the TCP connection is opened
lazily at the first emit) or the `logging.NullHandler` fallback. -/
inductive Handler where
  | gelf_tcp (host : Option String) (port : Option Int)
      (debugging_fields : Bool)
  | null_handler
  deriving DecidableEq, Repr

/-- The bound structlog logger returned by `structlog.wrap_logger`. -/
structure SynLog where
  logger_name : String
  processors : List Stage
  deriving DecidableEq, Repr

/-- Mutable state touched by `RootLogger.initialise`: the handler pool
and level of the named `logging.Logger`, plus the `synlog` attribute of
the `RootLogger` instance (None until first initialisation). -/
structure LoggerState where
  handlers : List Handler
  level : Int
  synlog : Option SynLog
  deriving DecidableEq, Repr

/-- `RootLogger.is_initialised` (`base.py`): `self.synlog is not None`. -/
def is_initialised (s : LoggerState) : Bool :=
  s.synlog.isSome

/-- The handler chosen inside `initialise`: a `graypy.GELFTCPHandler`
for the graylog variant, otherwise a `logging.NullHandler`. -/
def mkHandler (cfg : Config) : Handler :=
  if cfg.logging_variant = .graylog then
    .gelf_tcp cfg.server cfg.port cfg.debugging_fields
  else
    .null_handler

/-- `RootLogger.initialise` (`base.py`), step by step:
`core_logger.setLevel(...)`; if not initialised, clear the handler pool
when `hasHandlers()` and attach the one freshly built handler; then
(unconditionally) rebuild the processors and rebind `self.synlog`.
No step of the source can raise: handler construction only stores the
`(host, port)` address, and the `RENDER_MAP` lookup is total over the
supported variants. -/
def initialise (cfg : Config) (s : LoggerState) :
    SynLog × LoggerState :=
  let handlers :=
    if is_initialised s then s.handlers
    else
      let cleared := if s.handlers.isEmpty then s.handlers else []
      cleared ++ [mkHandler cfg]
  let processors := _configure_processors cfg
  let sys_logger : SynLog :=
    { logger_name := cfg.logger_name, processors := processors }
  (sys_logger,
   { handlers := handlers, level := cfg.logging_level,
     synlog := some sys_logger })

/-- `n` successive calls of `initialise` on the same handle. -/
def initialiseN (cfg : Config) : Nat → LoggerState → LoggerState
  | 0, s => s
  | n + 1, s => initialiseN cfg n (initialise cfg s).2

/-- A handle that is already initialised keeps its handler pool across
any further `initialise` calls. -/
theorem initialiseN_handlers_stable (cfg : Config) (n : Nat)
    (s : LoggerState) (h : is_initialised s = true) :
    (initialiseN cfg n s).handlers = s.handlers := by
  induction n generalizing s with
  | zero => rfl
  | succ m ih =>
      have hstep : (initialise cfg s).2.handlers = s.handlers := by
        simp [initialise, h]
      have hinit : is_initialised (initialise cfg s).2 = true := by
        simp [initialise, is_initialised]
      rw [initialiseN, ih _ hinit, hstep]

end RootLogger

/-- The state of a `SysmetricLogger`'s background tracker process
(`general.py`): the spawned `multiprocessing.Process` whose body loops
over `__probe` with the captured logger name, localisation descriptors
and polling resolution. -/
structure TrackerProcess where
  logger_name : String
  descriptors : List (String × String)
  resolution : Nat
  deriving DecidableEq, Repr

namespace SysmetricLogger

/-- State of a `SysmetricLogger`: the `tracker` attribute (None until
`track` spawns a process) plus the inherited `RootLogger` state. -/
structure SysState where
  tracker : Option TrackerProcess
  root : RootLogger.LoggerState
  deriving DecidableEq, Repr

/-- `SysmetricLogger.__init__` (`general.py`): `self.tracker = None`. -/
def construct (root : RootLogger.LoggerState) : SysState :=
  { tracker := none, root := root }

/-- `SysmetricLogger.is_tracking` (`general.py`):
`self.tracker is not None`. -/
def is_tracking (s : SysState) : Bool :=
  s.tracker.isSome

/-- `SysmetricLogger.track` (`general.py`): when not tracking,
initialise the handle, spawn the daemonised probe process and store it
in `self.tracker`; in every case return `self.tracker`. -/
def track (cfg : Config) (file_path class_name function_name : String)
    (resolution : Nat) (s : SysState) :
    Option TrackerProcess × SysState :=
  if is_tracking s then
    (s.tracker, s)
  else
    let root' := (RootLogger.initialise cfg s.root).2
    let descriptors :=
      [ ("ID_path", file_path),
        ("ID_class", class_name),
        ("ID_function", function_name) ]
    let tracker : TrackerProcess :=
      { logger_name := cfg.logger_name, descriptors := descriptors,
        resolution := resolution }
    (some tracker, { tracker := some tracker, root := root' })

/-- The attributes an initialised `SysmetricLogger` instance actually
has: every attribute assigned in `SysmetricLogger.__init__` and
`RootLogger.__init__`, and every method defined on the two classes
(`abstract.py`, `base.py`, `general.py`), with Python's name mangling
applied to the double-underscore members. -/
def instanceAttributes : List String :=
  [ "logger_name", "logging_level", "logging_variant", "debugging_fields",
    "filter_functions", "server", "port", "censor_keys", "synlog",
    "file_path", "tracker", "_SysmetricLogger__DEFAULT_FILTERS",
    "is_initialised", "_configure_processors", "initialise",
    "is_tracking", "_SysmetricLogger__exit", "_SysmetricLogger__probe",
    "track", "terminate" ]

/-- Python attribute lookup `self.<attr>` on a `SysmetricLogger`
instance: an `AttributeError` when the attribute does not exist. -/
def getattr (attr : String) : Except String Unit :=
  if instanceAttributes.contains attr then .ok ()
  else .error ("AttributeError: " ++ attr)

/-- One iteration of `SysmetricLogger.__probe` (`general.py`):
`self.apply_filters(self.templog, self.filter_functions)` — the
callable `self.apply_filters` is looked up first, then the arguments —
followed by `self.synlog.info(f"... Probing system's hardware usage",
resolution=resolution, **descriptors)` and `time.sleep(resolution)`.
On success it would produce the emitted event record. -/
def probe (logger_name : String) (resolution : Nat)
    (descriptors : List (String × String)) : Except String Record := do
  let _ ← getattr "apply_filters"
  let _ ← getattr "templog"
  let _ ← getattr "filter_functions"
  let _ ← getattr "synlog"
  pure
    ([ ("event", Value.str (logger_name ++
          " - Probing system's hardware usage")),
       ("resolution", Value.int resolution) ]
     ++ descriptors.map (fun p => (p.1, Value.str p.2)))

/-- The exit status `join()` observes for the spawned child.  The
child's body (`track.target`, `general.py`) installs the SIGINT/SIGTERM
handlers and then loops over `__probe`: when the first probe iteration
raises, the uncaught exception makes `multiprocessing`'s bootstrap exit
the child with status `1` — before any SIGTERM can reach the installed
`__exit` handler; only a child whose probe loop runs would be stopped by
that handler's `sys.exit(0)` with status `0`. -/
def trackerExitCode (t : TrackerProcess) : Int :=
  match probe t.logger_name t.resolution t.descriptors with
  | .error _ => 1
  | .ok _ => 0

/-- `SysmetricLogger.terminate` (`general.py`): `self.tracker.terminate()`
— an `AttributeError` when `self.tracker` is `None`.  Otherwise SIGTERM
is sent, `join()` waits for the child and `self.tracker.exitcode` is
returned after the tracker is closed and reset to `None`. -/
def terminate (s : SysState) : Except String (Int × SysState) :=
  match s.tracker with
  | none =>
      .error "AttributeError: NoneType object has no attribute terminate"
  | some t => .ok (trackerExitCode t, { s with tracker := none })

end SysmetricLogger

/-! ## Claim theorems -/

/-- C1: for every logging variant in `{basic, graylog, test}` and every
configuration (censor keys, caller-supplied filter stages, file path),
the stage list built by `RootLogger._configure_processors` has the
variant's terminal renderer as its last element, and no renderer
occupies any earlier position. -/
theorem claim_C1_renderer_always_last (cfg : Config) :
    (RootLogger._configure_processors cfg).getLast? =
      some (Stage.renderer cfg.logging_variant)
    ∧ ((RootLogger._configure_processors cfg).dropLast.all
        (fun s => !s.isRenderer)) = true := by
  have hc : RootLogger._configure_processors cfg =
      ([ .add_logger_name,
         .add_log_level,
         .add_log_level_number,
         .filter_by_level,
         .positional_arguments_formatter,
         .format_exc_info,
         .time_stamper,
         .stack_info_renderer,
         .unicode_decoder ]
       ++ cfg.filter_functions.map Stage.custom_filter
       ++ [ .get_file_path_stage cfg.file_path,
            .censor_logging_stage cfg.censor_keys ])
      ++ [Stage.renderer cfg.logging_variant] := by
    simp [RootLogger._configure_processors]
  constructor
  · rw [hc, List.getLast?_concat]
  · rw [hc, List.dropLast_concat]
    simp [List.all_append, List.all_map, Stage.isRenderer, Function.comp]

/-- C2: for every censor-key list `K` and record `R`, the censoring
stage maps each key of `R` that is in `K` with a truthy value to the
sentinel `"*CENSORED*"`; keys of `K` absent from `R` stay absent, and
keys of `R` not in `K` keep their original values. -/
theorem claim_C2_censor_semantics (K : List String) (R : Record)
    (key : String) :
    (∀ v : Value, key ∈ K → R.lookup key = some v → v.truthy = true →
      (StructlogUtils.censor_logging K R).lookup key =
        some (.str CENSOR))
    ∧ (key ∈ K → R.lookup key = none →
        (StructlogUtils.censor_logging K R).lookup key = none)
    ∧ (key ∉ K →
        (StructlogUtils.censor_logging K R).lookup key =
          R.lookup key) := by
  refine ⟨?_, ?_, ?_⟩
  · intro v hmem hl ht
    exact StructlogUtils.censor_censors_truthy K R key v hmem hl ht
  · intro _ hl
    exact StructlogUtils.censor_preserves_absent K R key hl
  · intro hmem
    exact StructlogUtils.censor_preserves_not_mem K R key hmem

/-- Witness for C2 at a concrete censor list and record. -/
theorem claim_C2_censor_semantics_witness :
    (StructlogUtils.censor_logging ["password", "token"]
      [("password", Value.str "hunter2"),
       ("user", Value.str "amy")]).lookup "password" =
      some (.str CENSOR)
    ∧ (StructlogUtils.censor_logging ["password", "token"]
        [("password", Value.str "hunter2"),
         ("user", Value.str "amy")]).lookup "token" = none
    ∧ (StructlogUtils.censor_logging ["password", "token"]
        [("password", Value.str "hunter2"),
         ("user", Value.str "amy")]).lookup "user" =
        some (Value.str "amy") := by
  refine ⟨?_, ?_, ?_⟩
  · exact (claim_C2_censor_semantics _ _ "password").1
      (Value.str "hunter2") (by decide) (by decide) (by decide)
  · exact (claim_C2_censor_semantics _ _ "token").2.1
      (by decide) (by decide)
  · have h := (claim_C2_censor_semantics ["password", "token"]
      [("password", Value.str "hunter2"),
       ("user", Value.str "amy")] "user").2.2 (by decide)
    rw [h]
    decide

/-- C3 fails on the code: a censor key present with a falsy value
(here the empty string) is NOT replaced by the sentinel, because
`censor_logging` guards the replacement behind `if k:`. -/
theorem claim_C3_counterexample :
    (StructlogUtils.censor_logging ["password"]
      [("password", Value.str "")]).lookup "password" ≠
        some (.str CENSOR)
    ∧ (StructlogUtils.censor_logging ["password"]
        [("password", Value.str "")]).lookup "password" =
        some (Value.str "") := by
  constructor
  · decide
  · decide

/-- C3 amended: after censoring, every key in `K` present in `R` WITH A
TRUTHY VALUE maps to the sentinel; a key present with a falsy value is
left unchanged; every key not in `K` is unchanged. -/
theorem claim_C3_amended_presence_needs_truthiness (K : List String)
    (R : Record) (key : String) :
    (∀ v : Value, key ∈ K → R.lookup key = some v → v.truthy = true →
      (StructlogUtils.censor_logging K R).lookup key =
        some (.str CENSOR))
    ∧ (∀ v : Value, R.lookup key = some v → v.truthy = false →
        (StructlogUtils.censor_logging K R).lookup key = some v)
    ∧ (key ∉ K →
        (StructlogUtils.censor_logging K R).lookup key =
          R.lookup key) := by
  refine ⟨?_, ?_, ?_⟩
  · intro v hmem hl ht
    exact StructlogUtils.censor_censors_truthy K R key v hmem hl ht
  · intro v hl ht
    exact StructlogUtils.censor_skips_falsy K R key v hl ht
  · intro hmem
    exact StructlogUtils.censor_preserves_not_mem K R key hmem

/-- Witness for the amended C3 at a concrete censor list and record. -/
theorem claim_C3_amended_presence_needs_truthiness_witness :
    (StructlogUtils.censor_logging ["password", "attempts"]
      [("password", Value.str "hunter2"),
       ("attempts", Value.int 0),
       ("user", Value.str "amy")]).lookup "password" =
      some (.str CENSOR)
    ∧ (StructlogUtils.censor_logging ["password", "attempts"]
        [("password", Value.str "hunter2"),
         ("attempts", Value.int 0),
         ("user", Value.str "amy")]).lookup "attempts" =
        some (Value.int 0)
    ∧ (StructlogUtils.censor_logging ["password", "attempts"]
        [("password", Value.str "hunter2"),
         ("attempts", Value.int 0),
         ("user", Value.str "amy")]).lookup "user" =
        some (Value.str "amy") := by
  refine ⟨?_, ?_, ?_⟩
  · exact (claim_C3_amended_presence_needs_truthiness _ _ "password").1
      (Value.str "hunter2") (by decide) (by decide) (by decide)
  · exact (claim_C3_amended_presence_needs_truthiness _ _ "attempts").2.1
      (Value.int 0) (by decide) (by decide)
  · have h := (claim_C3_amended_presence_needs_truthiness
      ["password", "attempts"]
      [("password", Value.str "hunter2"),
       ("attempts", Value.int 0),
       ("user", Value.str "amy")] "user").2.2 (by decide)
    rw [h]
    decide

/-- C4: a second `initialise()` on the same handle is a no-op:
`is_initialised()` is true after the first call, and the second call
returns the same bound handle and leaves the whole resulting state —
in particular the bound processor chain — unchanged. -/
theorem claim_C4_initialise_idempotent (cfg : Config)
    (s : RootLogger.LoggerState) :
    RootLogger.is_initialised (RootLogger.initialise cfg s).2 = true
    ∧ RootLogger.initialise cfg (RootLogger.initialise cfg s).2 =
        RootLogger.initialise cfg s := by
  constructor
  · rfl
  · rfl

/-- C5: starting from a freshly constructed handle (synlog = None) over
a named logger with an arbitrary pre-existing handler pool, any positive
number of `initialise()` calls leaves exactly one handler attached: the
first call clears the pool and attaches one, later calls attach none. -/
theorem claim_C5_at_most_one_sink (cfg : Config)
    (hs : List RootLogger.Handler) (lvl : Int) (n : Nat) :
    (RootLogger.initialiseN cfg (n + 1)
      { handlers := hs, level := lvl, synlog := none }).handlers =
      [RootLogger.mkHandler cfg]
    ∧ (RootLogger.initialiseN cfg (n + 1)
        { handlers := hs, level := lvl, synlog := none
        }).handlers.length = 1 := by
  have hfirst : (RootLogger.initialise cfg
      { handlers := hs, level := lvl, synlog := none }).2.handlers =
      [RootLogger.mkHandler cfg] := by
    cases hs <;>
      simp [RootLogger.initialise, RootLogger.is_initialised]
  have hmain : (RootLogger.initialiseN cfg (n + 1)
      { handlers := hs, level := lvl, synlog := none }).handlers =
      [RootLogger.mkHandler cfg] := by
    rw [RootLogger.initialiseN,
      RootLogger.initialiseN_handlers_stable cfg n _ (by rfl), hfirst]
  exact ⟨hmain, by rw [hmain]; rfl⟩

/-- C6 fails on the code: the graylog renderer does NOT force the
`function` field — the line assigning it is commented out in
`graypy_structlog_processor` — so on a record without `function` the
rendered `extra` mapping lacks it. -/
theorem claim_C6_counterexample :
    ((StructlogUtils.graypy_structlog_processor
      [("event", Value.str "hello")]).2.lookup "function").isSome =
      false := by
  decide

/-- C6 amended: the graylog renderer returns the `event` field (with
empty-string default) as its positional component, and `extra` is the
record with the FOUR fields `pid`, `process_name`, `thread_name` and
`file` forced to empty strings; `function` and every other key are
passed through unchanged. -/
theorem claim_C6_amended_four_forced_fields (R : Record) :
    (StructlogUtils.graypy_structlog_processor R).1 =
      (R.lookup "event").getD (.str "")
    ∧ (StructlogUtils.graypy_structlog_processor R).2.lookup "pid" =
        some (.str "")
    ∧ (StructlogUtils.graypy_structlog_processor R).2.lookup
        "process_name" = some (.str "")
    ∧ (StructlogUtils.graypy_structlog_processor R).2.lookup
        "thread_name" = some (.str "")
    ∧ (StructlogUtils.graypy_structlog_processor R).2.lookup "file" =
        some (.str "")
    ∧ (StructlogUtils.graypy_structlog_processor R).2.lookup
        "function" = R.lookup "function"
    ∧ (∀ k : String,
        k ∉ ["pid", "process_name", "thread_name", "file"] →
        (StructlogUtils.graypy_structlog_processor R).2.lookup k =
          R.lookup k) := by
  refine ⟨rfl, ?_, ?_, ?_, ?_, ?_, ?_⟩
  · show (dictSet (dictSet (dictSet (dictSet R "pid" (.str ""))
      "process_name" (.str "")) "thread_name" (.str "")) "file"
      (.str "")).lookup "pid" = some (.str "")
    rw [lookup_dictSet_ne _ _ _ _ (by decide),
      lookup_dictSet_ne _ _ _ _ (by decide),
      lookup_dictSet_ne _ _ _ _ (by decide),
      lookup_dictSet_self]
  · show (dictSet (dictSet (dictSet (dictSet R "pid" (.str ""))
      "process_name" (.str "")) "thread_name" (.str "")) "file"
      (.str "")).lookup "process_name" = some (.str "")
    rw [lookup_dictSet_ne _ _ _ _ (by decide),
      lookup_dictSet_ne _ _ _ _ (by decide),
      lookup_dictSet_self]
  · show (dictSet (dictSet (dictSet (dictSet R "pid" (.str ""))
      "process_name" (.str "")) "thread_name" (.str "")) "file"
      (.str "")).lookup "thread_name" = some (.str "")
    rw [lookup_dictSet_ne _ _ _ _ (by decide), lookup_dictSet_self]
  · show (dictSet (dictSet (dictSet (dictSet R "pid" (.str ""))
      "process_name" (.str "")) "thread_name" (.str "")) "file"
      (.str "")).lookup "file" = some (.str "")
    rw [lookup_dictSet_self]
  · show (dictSet (dictSet (dictSet (dictSet R "pid" (.str ""))
      "process_name" (.str "")) "thread_name" (.str "")) "file"
      (.str "")).lookup "function" = R.lookup "function"
    rw [lookup_dictSet_ne _ _ _ _ (by decide),
      lookup_dictSet_ne _ _ _ _ (by decide),
      lookup_dictSet_ne _ _ _ _ (by decide),
      lookup_dictSet_ne _ _ _ _ (by decide)]
  · intro k hk
    simp only [List.mem_cons, List.not_mem_nil, or_false, not_or] at hk
    obtain ⟨h1, h2, h3, h4⟩ := hk
    show (dictSet (dictSet (dictSet (dictSet R "pid" (.str ""))
      "process_name" (.str "")) "thread_name" (.str "")) "file"
      (.str "")).lookup k = R.lookup k
    rw [lookup_dictSet_ne _ _ _ _ h4, lookup_dictSet_ne _ _ _ _ h3,
      lookup_dictSet_ne _ _ _ _ h2, lookup_dictSet_ne _ _ _ _ h1]

/-- Witness for the amended C6 at a concrete record. -/
theorem claim_C6_amended_four_forced_fields_witness :
    (StructlogUtils.graypy_structlog_processor
      [("event", Value.str "ping"),
       ("x", Value.int 42)]).2.lookup "pid" = some (.str "")
    ∧ (StructlogUtils.graypy_structlog_processor
        [("event", Value.str "ping"),
         ("x", Value.int 42)]).2.lookup "x" = some (Value.int 42) := by
  constructor
  · exact (claim_C6_amended_four_forced_fields _).2.1
  · have h := (claim_C6_amended_four_forced_fields
      [("event", Value.str "ping"), ("x", Value.int 42)]).2.2.2.2.2.2
      "x" (by decide)
    rw [h]
    decide

/-- C7 states the intended lifecycle — the repository's own test
(`test_SysmetricLogger_terminate`) asserts `exit_code == 0` — but the
code violates the exit-code conjunct: the child spawned by `track()`
crashes with `AttributeError` in its first `__probe` iteration (the C8
slip) and exits with status 1 before any SIGTERM can trigger the
`sys.exit(0)` handler, so `terminate()` after `track()` returns 1,
not 0.  The tracker is still reset to `None`. -/
theorem claim_C7_terminate_returns_exit_code_one :
    ∃ s' : SysmetricLogger.SysState,
      SysmetricLogger.terminate
        (SysmetricLogger.track
          { logger_name := "SYS_test", logging_variant := .test,
            server := some "127.0.0.1", port := some 9100,
            logging_level := 20, debugging_fields := false,
            filter_functions := [], censor_keys := [], file_path := "" }
          "/path/file.py" "Cls" "fn" 1
          { tracker := none,
            root := { handlers := [], level := 20, synlog := none }
          }).2 = .ok (1, s')
      ∧ s'.tracker = none := by
  exact ⟨_, rfl, rfl⟩

/-- C8 is right about the intended behaviour, but the code contradicts
it: the very first statement of `SysmetricLogger.__probe` dereferences
`self.apply_filters` (and `self.templog`), neither of which exists on
the class or anywhere in the package, so every probe iteration raises
`AttributeError` before emitting anything. -/
theorem claim_C8_probe_raises_attribute_error :
    SysmetricLogger.probe "SYS_test" 1
      [("ID_path", "/path/file.py"), ("ID_class", "Cls"),
       ("ID_function", "fn")] =
      .error "AttributeError: apply_filters" := by
  rfl

/-- C9 fails on the code: `initialise()` performs no validation of
`server`/`port`.  With the graylog variant and both missing, it
completes normally, attaching the network sink with the absent address
and binding the chain — nothing is raised during initialization. -/
theorem claim_C9_counterexample :
    RootLogger.is_initialised
      (RootLogger.initialise
        { logger_name := "std_log", logging_variant := .graylog,
          server := none, port := none, logging_level := 20,
          debugging_fields := false, filter_functions := [],
          censor_keys := [], file_path := "" }
        { handlers := [], level := 20, synlog := none }).2 = true
    ∧ (RootLogger.initialise
        { logger_name := "std_log", logging_variant := .graylog,
          server := none, port := none, logging_level := 20,
          debugging_fields := false, filter_functions := [],
          censor_keys := [], file_path := "" }
        { handlers := [], level := 20, synlog := none }).2.handlers =
        [RootLogger.Handler.gelf_tcp none none false] := by
  constructor
  · rfl
  · rfl

/-- C9 amended: for the graylog variant with `server`/`port` missing,
`initialise()` does NOT fail: it completes, binds the chain, and (on a
fresh handle) attaches the network sink carrying the missing address —
any connection failure can only surface later, at the first emit. -/
theorem claim_C9_amended_no_init_validation (cfg : Config)
    (s : RootLogger.LoggerState) (hv : cfg.logging_variant = .graylog)
    (hs : cfg.server = none) (hp : cfg.port = none) :
    RootLogger.is_initialised (RootLogger.initialise cfg s).2 = true
    ∧ (RootLogger.is_initialised s = false →
        (RootLogger.initialise cfg s).2.handlers =
          [RootLogger.Handler.gelf_tcp none none
            cfg.debugging_fields]) := by
  constructor
  · rfl
  · intro h
    obtain ⟨hdl, lvl, syn⟩ := s
    simp [RootLogger.initialise, RootLogger.mkHandler, hv, hs, hp, h]

/-- Witness for the amended C9 at a concrete graylog configuration. -/
theorem claim_C9_amended_no_init_validation_witness :
    RootLogger.is_initialised
      (RootLogger.initialise
        { logger_name := "TTP_test", logging_variant := .graylog,
          server := none, port := none, logging_level := 20,
          debugging_fields := true, filter_functions := [],
          censor_keys := [], file_path := "" }
        { handlers := [RootLogger.Handler.null_handler], level := 20,
          synlog := none }).2 = true
    ∧ (RootLogger.initialise
        { logger_name := "TTP_test", logging_variant := .graylog,
          server := none, port := none, logging_level := 20,
          debugging_fields := true, filter_functions := [],
          censor_keys := [], file_path := "" }
        { handlers := [RootLogger.Handler.null_handler], level := 20,
          synlog := none }).2.handlers =
        [RootLogger.Handler.gelf_tcp none none true] := by
  have h := claim_C9_amended_no_init_validation
    { logger_name := "TTP_test", logging_variant := .graylog,
      server := none, port := none, logging_level := 20,
      debugging_fields := true, filter_functions := [],
      censor_keys := [], file_path := "" }
    { handlers := [RootLogger.Handler.null_handler], level := 20,
      synlog := none } rfl rfl rfl
  exact ⟨h.1, h.2 rfl⟩

/-- C10: the file-path stage unconditionally sets the record's
`file_path` key to the configured path — overwriting any caller value —
and leaves every other key unchanged. -/
theorem claim_C10_file_path_overwrites (fp : String) (R : Record) :
    (StructlogUtils.get_file_path fp R).lookup "file_path" =
      some (.str fp)
    ∧ (∀ k : String, k ≠ "file_path" →
        (StructlogUtils.get_file_path fp R).lookup k = R.lookup k) := by
  constructor
  · exact lookup_dictSet_self R "file_path" (.str fp)
  · intro k hk
    exact lookup_dictSet_ne R "file_path" k (.str fp) hk

/-- Witness for C10 at a record that already carries a caller-supplied
`file_path`. -/
theorem claim_C10_file_path_overwrites_witness :
    (StructlogUtils.get_file_path "/cfg/path.py"
      [("file_path", Value.str "/caller/stale.py"),
       ("x", Value.int 1)]).lookup "file_path" =
      some (Value.str "/cfg/path.py")
    ∧ (StructlogUtils.get_file_path "/cfg/path.py"
        [("file_path", Value.str "/caller/stale.py"),
         ("x", Value.int 1)]).lookup "x" = some (Value.int 1) := by
  constructor
  · exact (claim_C10_file_path_overwrites "/cfg/path.py" _).1
  · have h := (claim_C10_file_path_overwrites "/cfg/path.py"
      [("file_path", Value.str "/caller/stale.py"),
       ("x", Value.int 1)]).2 "x" (by decide)
    rw [h]
    decide

end Synlogger
